import Mathlib

/-
Shallow embedding of the timer core of the stm32f4xx-hal repository:
`src/timer.rs` (register capability interface `General`, `MonoTimer`,
`Instant`, `Error`) and `src/timer/count_down.rs` (`CountDownTimer`,
`SysCountDownTimer`).

Machine integers are modelled as `Nat` with explicit `% 2^32` at the points
where the Rust `u32` arithmetic wraps (release-profile semantics: overflow
wraps). A Rust panic (failed `assert!`, `unwrap()` of a failed cast) is
modelled as `Option.none`. Register state is an explicit record threaded
through every operation; the hardware side effect of a register write
(e.g. writing `EGR.UG`) is modelled following the STM32F4 reference manual:
writing UG reinitialises the counter, and sets the update-interrupt flag
only when `CR1.URS` is clear.
-/

set_option maxHeartbeats 1000000

namespace Stm32

/-- The closed error enumeration of `src/timer.rs` (`enum Error`). -/
inductive Error where
  | Disabled
  | WrongAutoReload
deriving DecidableEq, Repr

/-- The `nb` crate's error wrapper used by the non-blocking `wait` calls:
either the operation would block, or it failed with a real error. -/
inductive NbError where
  | WouldBlock
  | Other (e : Error)
deriving DecidableEq, Repr

/-- `2^32`, the modulus of Rust `u32` arithmetic. -/
def u32Mod : Nat := 4294967296

/-- Rust `a.wrapping_sub(b)` on `u32`, for `a b < 2^32`. -/
def wrapping_sub (a b : Nat) : Nat := (a + u32Mod - b) % u32Mod

/-- The largest value representable in the peripheral's native counter width
`w` (`<$bits>::MAX` in the `hal!` macro of `src/timer.rs`: `u16::MAX` for
16-bit timers, `u32::MAX` for 32-bit timers such as TIM2/TIM5). -/
def widthMax (w : Nat) : Nat := 2 ^ w - 1

/-- The register state of a general-purpose timer peripheral, i.e. the state
acted on by the `General` trait implementations generated by the `hal!`
macro in `src/timer.rs`. Fields: `CR1.CEN` (counter enable), `CR1.URS`
(update request source), `CNT`, `PSC`, `ARR`, `SR.UIF` (update interrupt
flag), `DIER.UIE` (update interrupt enable). -/
structure TimState where
  cen : Bool
  urs : Bool
  cnt : Nat
  psc : Nat
  arr : Nat
  uif : Bool
  uie : Bool
deriving DecidableEq, Repr

/-- `General::enable_counter`: set `CR1.CEN`. -/
def enable_counter (s : TimState) : TimState := { s with cen := true }

/-- `General::disable_counter`: clear `CR1.CEN`. -/
def disable_counter (s : TimState) : TimState := { s with cen := false }

/-- `General::is_counter_enabled`: read `CR1.CEN`. -/
def is_counter_enabled (s : TimState) : Bool := s.cen

/-- `General::reset_counter`: `self.cnt.reset()`, the CNT register's reset
value is zero. -/
def reset_counter (s : TimState) : TimState := { s with cnt := 0 }

/-- `General::set_prescaler`: write PSC. -/
def set_prescaler (s : TimState) (p : Nat) : TimState := { s with psc := p }

/-- `General::set_auto_reload` for a timer of native width `w`:
`if arr > 0 && arr <= <$bits>::MAX as u32 { Ok(write ARR) } else
{ Err(WrongAutoReload) }`. -/
def set_auto_reload (w : Nat) (s : TimState) (arr : Nat) : Except Error TimState :=
  if 0 < arr ∧ arr ≤ widthMax w then
    .ok { s with arr := arr }
  else
    .error .WrongAutoReload

/-- Hardware effect of writing `EGR.UG` (STM32F4 reference manual): the
counter is reinitialised; the update-interrupt flag is set by this
software-generated update event only when `CR1.URS` is clear, and is never
cleared by it. -/
def egr_ug (s : TimState) : TimState :=
  { s with cnt := 0, uif := if s.urs then s.uif else true }

/-- `General::trigger_update`: set `CR1.URS`, write `EGR.UG`, clear
`CR1.URS`. -/
def trigger_update (s : TimState) : TimState :=
  let s1 := { s with urs := true }
  let s2 := egr_ug s1
  { s2 with urs := false }

/-- `General::clear_update_interrupt_flag`: `self.sr.write(|w| w.uif().clear_bit())`. -/
def clear_update_interrupt_flag (s : TimState) : TimState := { s with uif := false }

/-- `General::listen_update_interrupt`: write `DIER.UIE`. -/
def listen_update_interrupt (s : TimState) (b : Bool) : TimState := { s with uie := b }

/-- `General::get_update_interrupt_flag`: `self.sr.read().uif().bit_is_clear()`
— note it returns `true` when the UIF bit is CLEAR (the name is inverted
relative to the bit value). -/
def get_update_interrupt_flag (s : TimState) : Bool := !s.uif

/-- `General::read_count`: read CNT. -/
def read_count (s : TimState) : Nat := s.cnt

/-- `General::read_auto_reload`: read ARR. -/
def read_auto_reload (s : TimState) : Nat := s.arr

namespace CountDownTimer

/-- `CountDownTimer::<TIM, FREQ>::new` (src/timer/count_down.rs:143):
`psc = clk.0 / FREQ - 1` in `u32` (wrapping in release), then
`tim.set_prescaler(u16(psc).unwrap())` — the `cast::u16` conversion fails,
and the `unwrap` panics (`none`), when `psc > u16::MAX`. -/
def new (tim : TimState) (clk FREQ : Nat) : Option TimState :=
  let psc := wrapping_sub (clk / FREQ) 1
  if psc ≤ 65535 then some (set_prescaler tim psc) else none

/-- The tail of `CountDownTimer::start` after the fallible
`set_auto_reload` call, with `s2` the state already disabled and reset:
the `?` operator returns the error as is (counter still disabled and
reset); on success the update event is forced and the counter
re-enabled. -/
def start_after_arr (s2 : TimState) : Except Error TimState → TimState × Except Error Unit
  | .error e => (s2, .error e)
  | .ok s3 => (enable_counter (trigger_update s3), .ok ())

/-- `CountDownTimer::start` (src/timer/count_down.rs:198) for a timer of
native width `w`, with `ticks = timeout.ticks()`: pause, reset counter,
`arr = ticks - 1` (`u32`, wrapping in release), fallible auto-reload write
propagated with `?`, trigger update, re-enable. -/
def start (w : Nat) (s : TimState) (ticks : Nat) : TimState × Except Error Unit :=
  start_after_arr (reset_counter (disable_counter s))
    (set_auto_reload w (reset_counter (disable_counter s)) (wrapping_sub ticks 1))

/-- `CountDownTimer::wait` (src/timer/count_down.rs:216). -/
def wait (s : TimState) : TimState × Except NbError Unit :=
  if get_update_interrupt_flag s then
    (s, .error .WouldBlock)
  else
    (clear_update_interrupt_flag s, .ok ())

/-- `CountDownTimer::cancel` (src/timer/count_down.rs:225). -/
def cancel (s : TimState) : TimState × Except Error Unit :=
  if !is_counter_enabled s then
    (s, .error .Disabled)
  else
    (disable_counter s, .ok ())

/-- `CountDownTimer::now` (src/timer/count_down.rs:192):
`read_auto_reload - read_count` in `u32` (wrapping in release). -/
def now (s : TimState) : Nat :=
  wrapping_sub (read_auto_reload s) (read_count s)

end CountDownTimer

/-- The register state of the SysTick peripheral used by
`SysCountDownTimer`: `CSR.ENABLE`, `CSR.TICKINT`, the 24-bit reload value
register RVR, the current value register CVR, and `CSR.COUNTFLAG`. -/
structure SystState where
  enabled : Bool
  tickint : Bool
  rvr : Nat
  cvr : Nat
  countflag : Bool
deriving DecidableEq, Repr

/-- `SysCountDownTimer` (src/timer/count_down.rs:53): the SysTick peripheral
plus the precomputed ticks-per-microsecond divisor `mhz`. -/
structure SysCountDownTimer where
  tim : SystState
  mhz : Nat
deriving DecidableEq, Repr

/-- `SYST::is_counter_enabled` reads `CSR.ENABLE`. -/
def SystState.is_counter_enabled (t : SystState) : Bool := t.enabled

namespace SysCountDownTimer

/-- `SysCountDownTimer::new` (src/timer/count_down.rs:59):
`mhz = clk.0 / 1_000_000`. -/
def new (tim : SystState) (clkHz : Nat) : SysCountDownTimer :=
  { tim := tim, mhz := clkHz / 1000000 }

/-- `SysCountDownTimer::start` (src/timer/count_down.rs:84):
`rvr = timeout.ticks() * mhz - 1` in `u32` (both the multiplication and the
subtraction wrap in release), `assert!(rvr < (1 << 24))` (panic = `none`),
then `set_reload(rvr)`, `clear_current()` (writing CVR zeroes it and clears
COUNTFLAG), `enable_counter()`, `Ok(())`. -/
def start (t : SysCountDownTimer) (ticks : Nat) :
    Option (SysCountDownTimer × Except Error Unit) :=
  let rvr := wrapping_sub (ticks * t.mhz % u32Mod) 1
  if rvr < 2 ^ 24 then
    let tim1 := { t.tim with rvr := rvr }
    let tim2 := { tim1 with cvr := 0, countflag := false }
    let tim3 := { tim2 with enabled := true }
    some ({ t with tim := tim3 }, .ok ())
  else
    none

/-- `SysCountDownTimer::wait` (src/timer/count_down.rs:95): polls
`has_wrapped` (reading `CSR` returns COUNTFLAG and clears it). -/
def wait (t : SysCountDownTimer) : SysCountDownTimer × Except NbError Unit :=
  let t1 := { t with tim := { t.tim with countflag := false } }
  if t.tim.countflag then (t1, .ok ()) else (t1, .error .WouldBlock)

/-- `SysCountDownTimer::cancel` (src/timer/count_down.rs:103). -/
def cancel (t : SysCountDownTimer) : SysCountDownTimer × Except Error Unit :=
  if !t.tim.is_counter_enabled then
    (t, .error .Disabled)
  else
    ({ t with tim := { t.tim with enabled := false } }, .ok ())

end SysCountDownTimer

/-- `Instant` (src/timer.rs:95): an immutable snapshot of the raw DWT cycle
counter. -/
structure Instant where
  now : Nat
deriving DecidableEq, Repr

/-- `Instant::elapsed` (src/timer.rs:101):
`DWT::get_cycle_count().wrapping_sub(self.now)`. The live cycle-counter
value read by `DWT::get_cycle_count()` is passed explicitly as `cyccnt`. -/
def Instant.elapsed (i : Instant) (cyccnt : Nat) : Nat :=
  wrapping_sub cyccnt i.now

/-- A timer peripheral in its post-reset state (counter disabled, all
registers at zero) — the state a never-started timer is in after
`Timer::new`'s `TIM::reset`. -/
def tim0 : TimState :=
  { cen := false, urs := false, cnt := 0, psc := 0, arr := 0, uif := false, uie := false }

/-- A running timer with a stale update-interrupt flag: the counter is
enabled mid-period and SR.UIF is still set from a previous update event
that no `wait` call ever consumed. -/
def staleTim : TimState :=
  { cen := true, urs := false, cnt := 37, psc := 7, arr := 99, uif := true, uie := false }

/-- The SysTick peripheral in its post-reset state. -/
def syst0 : SystState :=
  { enabled := false, tickint := false, rvr := 0, cvr := 0, countflag := false }

/-- A `SysCountDownTimer` on a 64 MHz core clock (`mhz = 64`). -/
def sysT64 : SysCountDownTimer := { tim := syst0, mhz := 64 }

/-- For `1 ≤ p ≤ 2^32`, the wrapped `u32` computation `(p % 2^32) - 1`
recovers the exact value `p - 1`. -/
theorem wrapping_sub_one_exact {p : Nat} (h1 : 1 ≤ p) (h2 : p ≤ u32Mod) :
    wrapping_sub (p % u32Mod) 1 = p - 1 := by
  unfold wrapping_sub u32Mod at *
  rcases Nat.lt_or_ge p 4294967296 with h | h
  · rw [Nat.mod_eq_of_lt h]
    omega
  · have hp : p = 4294967296 := le_antisymm h2 h
    subst hp
    decide

/-- Helper: shape of a successful `set_auto_reload`. -/
theorem set_auto_reload_ok_shape {w a : Nat} {s s3 : TimState}
    (h : set_auto_reload w s a = .ok s3) : s3 = { s with arr := a } := by
  unfold set_auto_reload at h
  split at h
  · injection h with h
    exact h.symm
  · cases h

/-- Helper: a failing `set_auto_reload` always reports `WrongAutoReload`. -/
theorem set_auto_reload_error_shape {w a : Nat} {s : TimState} {e : Error}
    (h : set_auto_reload w s a = .error e) : e = .WrongAutoReload := by
  unfold set_auto_reload at h
  split at h
  · cases h
  · injection h with h
    exact h.symm

/-- Helper: `CountDownTimer.cancel` as a single conditional equation. -/
theorem cancel_eq (s : TimState) :
    CountDownTimer.cancel s =
      if s.cen = true then ({ s with cen := false }, .ok ()) else (s, .error .Disabled) := by
  unfold CountDownTimer.cancel is_counter_enabled disable_counter
  cases s.cen <;> simp

/-- Helper: the two possible outcomes of `CountDownTimer.start`. -/
theorem start_cases (w : Nat) (s : TimState) (ticks : Nat) :
    CountDownTimer.start w s ticks =
        (reset_counter (disable_counter s), .error .WrongAutoReload) ∨
    CountDownTimer.start w s ticks =
        (enable_counter (trigger_update
          { reset_counter (disable_counter s) with arr := wrapping_sub ticks 1 }), .ok ()) := by
  unfold CountDownTimer.start
  rcases h : set_auto_reload w (reset_counter (disable_counter s)) (wrapping_sub ticks 1)
    with e | s3
  · left
    rw [set_auto_reload_error_shape h]
    rfl
  · right
    rw [set_auto_reload_ok_shape h]
    rfl

/-- Claim C5 (confirmed): for raw cycle-counter values `s` (the stored
snapshot) and `c` (the live counter when `elapsed` is called),
`Instant::elapsed` returns `(c - s) mod 2^32`; in particular a snapshot at
0xFFFFFFF0 followed by a counter value of 0x00000010 yields elapsed 0x20
even though the raw counter decreased numerically. -/
theorem instant_elapsed_mod (s c : Nat) (hs : s < u32Mod) (hc : c < u32Mod) :
    ((Instant.elapsed ⟨s⟩ c : Nat) : Int) = ((c : Int) - (s : Int)) % (4294967296 : Int) ∧
    Instant.elapsed ⟨4294967280⟩ 16 = 32 := by
  constructor
  · show (((c + u32Mod - s) % u32Mod : Nat) : Int) = _
    unfold u32Mod at *
    omega
  · decide

/-- Witness for C5 at the claim's own example input. -/
theorem instant_elapsed_mod_witness :
    ((Instant.elapsed ⟨4294967280⟩ 16 : Nat) : Int) =
      ((16 : Int) - (4294967280 : Int)) % (4294967296 : Int) ∧
    Instant.elapsed ⟨4294967280⟩ 16 = 32 :=
  instant_elapsed_mod 4294967280 16 (by decide) (by decide)

/-- Claim C7 (confirmed): `CountDownTimer::wait` never returns a real error:
every call returns would-block (exactly while the hardware UIF bit is
clear) or success, and on the success path it clears the UIF bit before
returning; it is a single non-blocking poll. -/
theorem countdown_wait_spec (s : TimState) :
    ((CountDownTimer.wait s).2 = .error .WouldBlock ∨ (CountDownTimer.wait s).2 = .ok ()) ∧
    (s.uif = false → CountDownTimer.wait s = (s, .error .WouldBlock)) ∧
    (s.uif = true → CountDownTimer.wait s = ({ s with uif := false }, .ok ())) := by
  unfold CountDownTimer.wait get_update_interrupt_flag clear_update_interrupt_flag
  cases h : s.uif <;> simp [h]

/-- Witness for C7: a set flag yields success and clears the flag. -/
theorem countdown_wait_spec_witness :
    CountDownTimer.wait staleTim = ({ staleTim with uif := false }, .ok ()) :=
  (countdown_wait_spec staleTim).2.2 rfl

/-- Claim C9 (confirmed): for widths 16 and 32 and any `u32` request `arr`,
`General::set_auto_reload` returns `Err(WrongAutoReload)` exactly when
`arr = 0` or `arr > 2^w - 1`, and otherwise writes `arr` to ARR and
returns `Ok`. -/
theorem set_auto_reload_spec (s : TimState) (w arr : Nat)
    (_hw : w = 16 ∨ w = 32) (_harr : arr < u32Mod) :
    (set_auto_reload w s arr = .error .WrongAutoReload ↔ arr = 0 ∨ 2 ^ w - 1 < arr) ∧
    (arr ≠ 0 → arr ≤ 2 ^ w - 1 → set_auto_reload w s arr = .ok { s with arr := arr }) := by
  unfold set_auto_reload widthMax
  generalize (2 ^ w - 1 : Nat) = M
  by_cases hok : 0 < arr ∧ arr ≤ M
  · rw [if_pos hok]
    exact ⟨by simp; omega, fun _ _ => rfl⟩
  · rw [if_neg hok]
    exact ⟨by simp; omega, fun h1 h2 => absurd ⟨Nat.pos_of_ne_zero h1, h2⟩ hok⟩

/-- Witness for C9: on a 16-bit timer, 70000 is rejected and 500 accepted. -/
theorem set_auto_reload_spec_witness :
    set_auto_reload 16 tim0 70000 = .error .WrongAutoReload ∧
    set_auto_reload 16 tim0 500 = .ok { tim0 with arr := 500 } :=
  ⟨(set_auto_reload_spec tim0 16 70000 (Or.inl rfl) (by decide)).1.mpr (Or.inr (by decide)),
   (set_auto_reload_spec tim0 16 500 (Or.inl rfl) (by decide)).2 (by decide) (by decide)⟩

/-- Claim C8 (confirmed): both `cancel`s fail with `Disabled` exactly when
the counter is not enabled, and otherwise disable it and return `Ok`; so a
never-started (disabled) timer's `cancel` fails, `cancel` right after a
successful `start` succeeds, and an immediate second `cancel` fails. -/
theorem cancel_spec (s : TimState) (t : SysCountDownTimer) (w ticks : Nat) :
    ((CountDownTimer.cancel s).2 = .error .Disabled ↔ s.cen = false) ∧
    (s.cen = true → CountDownTimer.cancel s = ({ s with cen := false }, .ok ())) ∧
    (s.cen = false → CountDownTimer.cancel s = (s, .error .Disabled)) ∧
    ((SysCountDownTimer.cancel t).2 = .error .Disabled ↔ t.tim.enabled = false) ∧
    (t.tim.enabled = true →
      SysCountDownTimer.cancel t = ({ t with tim := { t.tim with enabled := false } }, .ok ())) ∧
    (t.tim.enabled = false → SysCountDownTimer.cancel t = (t, .error .Disabled)) ∧
    ((CountDownTimer.start w s ticks).2 = .ok () →
      (CountDownTimer.cancel (CountDownTimer.start w s ticks).1).2 = .ok () ∧
      (CountDownTimer.cancel
        (CountDownTimer.cancel (CountDownTimer.start w s ticks).1).1).2 = .error .Disabled) := by
  refine ⟨?_, ?_, ?_, ?_, ?_, ?_, ?_⟩
  · unfold CountDownTimer.cancel is_counter_enabled disable_counter
    cases h : s.cen <;> simp [h]
  · intro h
    unfold CountDownTimer.cancel is_counter_enabled disable_counter
    simp [h]
  · intro h
    unfold CountDownTimer.cancel is_counter_enabled
    simp [h]
  · unfold SysCountDownTimer.cancel SystState.is_counter_enabled
    cases h : t.tim.enabled <;> simp [h]
  · intro h
    unfold SysCountDownTimer.cancel SystState.is_counter_enabled
    simp [h]
  · intro h
    unfold SysCountDownTimer.cancel SystState.is_counter_enabled
    simp [h]
  · intro hok
    rcases start_cases w s ticks with h | h
    · rw [h] at hok
      simp at hok
    · rw [h]
      simp only [cancel_eq, enable_counter, trigger_update, egr_ug, reset_counter,
        disable_counter]
      simp

/-- Witness for C8: `cancel` on a running timer succeeds; `cancel` on the
reset-state SysTick timer fails with `Disabled`; after a successful
`start` the first `cancel` succeeds and the second fails. -/
theorem cancel_spec_witness :
    CountDownTimer.cancel staleTim = ({ staleTim with cen := false }, .ok ()) ∧
    SysCountDownTimer.cancel sysT64 = (sysT64, .error .Disabled) ∧
    ((CountDownTimer.cancel (CountDownTimer.start 16 tim0 5).1).2 = .ok () ∧
      (CountDownTimer.cancel
        (CountDownTimer.cancel (CountDownTimer.start 16 tim0 5).1).1).2 = .error .Disabled) :=
  ⟨(cancel_spec staleTim sysT64 16 5).2.1 rfl,
   (cancel_spec staleTim sysT64 16 5).2.2.2.2.2.1 rfl,
   (cancel_spec tim0 sysT64 16 5).2.2.2.2.2.2 rfl⟩

/-- Counterexample to claim C1 as stated: on a 32-bit timer (e.g. TIM2,
TIM5), `start` with a zero-tick timeout wraps the reload computation to
`2^32 - 1`, which `set_auto_reload` accepts, so `start(0)` returns `Ok`,
not `Err(WrongAutoReload)`. -/
theorem start_zero_32bit_not_err :
    (CountDownTimer.start 32 tim0 0).2 = .ok () ∧
    (CountDownTimer.start 32 tim0 0).1.arr = 4294967295 :=
  ⟨rfl, rfl⟩

/-- Claim C1 (corrected): with release (wrapping) arithmetic, `start(0)`
computes reload `2^32 - 1`; on a 16-bit timer this exceeds the width and
`start(0)` returns `Err(WrongAutoReload)`, but on a 32-bit timer
`set_auto_reload` accepts `2^32 - 1` and `start(0)` returns `Ok`. -/
theorem start_zero_amended (s : TimState) :
    (CountDownTimer.start 16 s 0).2 = .error .WrongAutoReload ∧
    (CountDownTimer.start 32 s 0).2 = .ok () ∧
    (CountDownTimer.start 32 s 0).1.arr = 4294967295 :=
  ⟨rfl, rfl, rfl⟩

/-- Counterexample to claim C2 as stated: starting from a running timer
whose SR.UIF is still set from a previous period (`staleTim`), `start`
succeeds and the very first `wait` afterwards immediately returns success —
the stale flag is not cleared or suppressed by `start`. -/
theorem stale_flag_first_wait_succeeds :
    staleTim.uif = true ∧
    (CountDownTimer.start 16 staleTim 100).2 = .ok () ∧
    (CountDownTimer.wait (CountDownTimer.start 16 staleTim 100).1).2 = .ok () :=
  ⟨rfl, rfl, rfl⟩

/-- Claim C2 (corrected): `start` leaves SR.UIF exactly as it found it (the
URS dance in `trigger_update` only prevents the forced update event from
setting the flag; nothing clears a stale flag). Hence when the flag is
clear at `start` time the first `wait` returns would-block, but a stale
flag from a previous period makes the first `wait` succeed immediately. -/
theorem start_preserves_uif (w : Nat) (s : TimState) (ticks : Nat) :
    ((CountDownTimer.start w s ticks).1.uif = s.uif) ∧
    (s.uif = false →
      (CountDownTimer.wait (CountDownTimer.start w s ticks).1).2 = .error .WouldBlock) := by
  rcases start_cases w s ticks with h | h <;> rw [h]
  · refine ⟨rfl, fun hu => ?_⟩
    simp [CountDownTimer.start_after_arr, CountDownTimer.wait, get_update_interrupt_flag, reset_counter,
      disable_counter, hu]
  · refine ⟨rfl, fun hu => ?_⟩
    simp [CountDownTimer.start_after_arr, CountDownTimer.wait, get_update_interrupt_flag, enable_counter,
      trigger_update, egr_ug, reset_counter, disable_counter, hu]

/-- Witness for C2's amended statement at a concrete clear-flag state. -/
theorem start_preserves_uif_witness :
    ((CountDownTimer.start 16 tim0 100).1.uif = tim0.uif) ∧
    (CountDownTimer.wait (CountDownTimer.start 16 tim0 100).1).2 = .error .WouldBlock :=
  ⟨(start_preserves_uif 16 tim0 100).1, (start_preserves_uif 16 tim0 100).2 rfl⟩

/-- Counterexample to claim C3 as stated: on a 64 MHz clock (`mhz = 64`) a
timeout of 67108865 µs makes `ticks * mhz` overflow 32 bits; the wrapped
reload 63 passes the 24-bit assertion, so `start` returns `Ok` and writes
reload 63, even though the exact value `ticks * mhz - 1 = 4294967359` does
not fit 24 bits and differs from what was written. -/
theorem sys_start_overflow_cex :
    SysCountDownTimer.start sysT64 67108865 =
      some (⟨{ enabled := true, tickint := false, rvr := 63, cvr := 0,
               countflag := false }, 64⟩, .ok ()) ∧
    67108865 * 64 - 1 = 4294967359 ∧
    2 ^ 24 ≤ 4294967359 ∧
    (63 : Nat) ≠ 4294967359 :=
  ⟨rfl, by norm_num, by norm_num, by norm_num⟩

/-- Claim C3 (corrected): the reload is computed as `ticks * mhz - 1` in
wrapping 32-bit arithmetic. Provided the product `ticks * mhz` does not
exceed `2^32`, the original claim holds: the reload written is exactly
`ticks * mhz - 1` when it fits 24 bits, and the assertion panics
otherwise. When the product overflows 32 bits the computation silently
wraps before the assertion and can pass it. -/
theorem sys_start_exact (t : SysCountDownTimer) (ticks : Nat)
    (h1 : 1 ≤ ticks * t.mhz) (h2 : ticks * t.mhz ≤ u32Mod) :
    (ticks * t.mhz - 1 < 2 ^ 24 →
      SysCountDownTimer.start t ticks =
        some (⟨{ enabled := true, tickint := t.tim.tickint, rvr := ticks * t.mhz - 1,
                 cvr := 0, countflag := false }, t.mhz⟩, .ok ())) ∧
    (2 ^ 24 ≤ ticks * t.mhz - 1 → SysCountDownTimer.start t ticks = none) := by
  simp only [SysCountDownTimer.start]
  rw [wrapping_sub_one_exact h1 h2]
  constructor
  · intro h
    rw [if_pos h]
  · intro h
    rw [if_neg (by omega)]

/-- Witness for C3's amended statement: 1000 µs at 1 MHz writes reload 999. -/
theorem sys_start_exact_witness :
    SysCountDownTimer.start ⟨syst0, 1⟩ 1000 =
      some (⟨{ enabled := true, tickint := false, rvr := 999, cvr := 0,
               countflag := false }, 1⟩, .ok ()) := by
  have h := (sys_start_exact ⟨syst0, 1⟩ 1000 (by norm_num) (by norm_num [u32Mod])).1
    (by norm_num)
  simpa using h

/-- Claim C4 (confirmed): for any timeout of at least one tick,
`CountDownTimer::start` disables the counter, resets it to zero, computes
`reload = ticks - 1`, writes it through the fallible setter — returning
`Err(WrongAutoReload)` unchanged, with the counter still disabled, when
the setter rejects it — and otherwise forces the update event and
re-enables the counter, leaving exactly the state described. -/
theorem start_sequence (w : Nat) (s : TimState) (ticks : Nat)
    (h1 : 1 ≤ ticks) (h2 : ticks < u32Mod) :
    ((ticks - 1 = 0 ∨ 2 ^ w - 1 < ticks - 1) →
      CountDownTimer.start w s ticks =
        ({ s with cen := false, cnt := 0 }, .error .WrongAutoReload)) ∧
    (0 < ticks - 1 → ticks - 1 ≤ 2 ^ w - 1 →
      CountDownTimer.start w s ticks =
        ({ s with cen := true, cnt := 0, arr := ticks - 1, urs := false }, .ok ())) := by
  have hw : wrapping_sub ticks 1 = ticks - 1 := by
    have h3 := wrapping_sub_one_exact (p := ticks) h1 (le_of_lt h2)
    rwa [Nat.mod_eq_of_lt h2] at h3
  unfold CountDownTimer.start set_auto_reload widthMax
  rw [hw]
  generalize (2 ^ w - 1 : Nat) = M
  constructor
  · intro hbad
    rw [if_neg (by omega)]
    rfl
  · intro hp hle
    rw [if_pos (⟨hp, hle⟩ : 0 < ticks - 1 ∧ ticks - 1 ≤ M)]
    rfl

/-- Witness for C4 on a 16-bit timer with a 5-tick timeout. -/
theorem start_sequence_witness :
    CountDownTimer.start 16 tim0 5 =
      ({ tim0 with cen := true, cnt := 0, arr := 4, urs := false }, .ok ()) :=
  (start_sequence 16 tim0 5 (by norm_num) (by norm_num [u32Mod])).2 (by norm_num) (by norm_num)

/-- Claim C10 (confirmed): whenever `CountDownTimer::start` returns an
error, the error is `WrongAutoReload`, the resulting state has the counter
disabled and reset to zero with ARR untouched, and a subsequent `cancel`
on that state fails with `Disabled`. -/
theorem start_err_state (w : Nat) (s s2 : TimState) (ticks : Nat) (e : Error)
    (h : CountDownTimer.start w s ticks = (s2, .error e)) :
    e = .WrongAutoReload ∧ s2.cen = false ∧ s2.cnt = 0 ∧ s2.arr = s.arr ∧
    CountDownTimer.cancel s2 = (s2, .error .Disabled) := by
  rcases start_cases w s ticks with hc | hc <;> rw [hc] at h
  · injection h with h1 h2
    injection h2 with h2
    subst h1
    subst h2
    refine ⟨rfl, rfl, rfl, rfl, ?_⟩
    simp [CountDownTimer.cancel, is_counter_enabled, reset_counter, disable_counter]
  · injection h with h1 h2
    cases h2

/-- Witness for C10: a one-tick timeout on a 16-bit timer fails (reload 0)
and leaves the reset-state timer disabled. -/
theorem start_err_state_witness :
    Error.WrongAutoReload = Error.WrongAutoReload ∧ tim0.cen = false ∧ tim0.cnt = 0 ∧
    tim0.arr = tim0.arr ∧ CountDownTimer.cancel tim0 = (tim0, .error .Disabled) :=
  start_err_state 16 tim0 tim0 1 .WrongAutoReload rfl

/-- Claim C6 (confirmed): whenever `base_frequency / FREQ` is an exact
integer ratio in `[1, 65536]`, `CountDownTimer::new` succeeds (the `u16`
cast cannot fail) and writes prescaler `base_frequency / FREQ - 1`. -/
theorem countdown_new_spec (tim : TimState) (clk FREQ : Nat)
    (_hdvd : FREQ ∣ clk) (h1 : 1 ≤ clk / FREQ) (h2 : clk / FREQ ≤ 65536) :
    CountDownTimer.new tim clk FREQ = some { tim with psc := clk / FREQ - 1 } := by
  simp only [CountDownTimer.new, set_prescaler]
  have hw : wrapping_sub (clk / FREQ) 1 = clk / FREQ - 1 := by
    have h3 := wrapping_sub_one_exact (p := clk / FREQ) h1 (by unfold u32Mod; omega)
    rwa [Nat.mod_eq_of_lt (by unfold u32Mod; omega)] at h3
  rw [hw, if_pos (by omega)]

/-- Witness for C6: a 48 MHz clock at FREQ = 1 MHz writes prescaler 47. -/
theorem countdown_new_spec_witness :
    CountDownTimer.new tim0 48000000 1000000 = some { tim0 with psc := 47 } :=
  countdown_new_spec tim0 48000000 1000000 (by norm_num) (by norm_num) (by norm_num)

end Stm32
